import Mathlib

/-!
Verification of the openlayer-map core against its specification.

The definitions below are shallow embeddings of the repository's source:
- `createTileGrid` embeds `WMTSService.createTileGrid`
  (src/services/layer-manager.service.ts, wmts.service.js part);
- the highlight machinery embeds `LayerManager.highlightFeature` and
  `LayerManager.createHighlightStyle`;
- `componentStyleFunction` / `resolveStyleConfig` embed the style pipeline of
  `ImprovedMapComponent` and `LayerManager.createFeatureStyle`;
- `hexToRgba` embeds `LayerManager.hexToRgba` (JS `parseInt(_, 16)` semantics
  included);
- `formatPolygonToWKT` embeds `DrawingService.formatPolygonToWKT`;
- `startDrawing` / `stopDrawing` embed the drawing interaction lifecycle of
  `DrawingService`;
- `fitToLayerExtent` / `flyToSelectedFeature` embed
  `LayerManager.fitToLayerExtent` and the selected-feature camera effect of
  `ImprovedMapComponent`.

Machine floats are modelled by exact rationals; the JS notion of a
non-finite number is modelled by the `JsNum` type.
-/

namespace OLMap

/-! ## Tile grid (WMTSService.createTileGrid) -/

/-- An extent `[minX, minY, maxX, maxY]`, all coordinates finite rationals. -/
structure Extent where
  minX : ℚ
  minY : ℚ
  maxX : ℚ
  maxY : ℚ
deriving DecidableEq

/-- The `size` computed in `createTileGrid`:
`Math.max(extent[2] - extent[0], extent[3] - extent[1])`. -/
def extentSpan (e : Extent) : ℚ :=
  max (e.maxX - e.minX) (e.maxY - e.minY)

/-- The data handed to the `WMTSTileGrid` constructor. -/
structure WMTSTileGridSpec where
  origin : ℚ × ℚ
  resolutions : List ℚ
  matrixIds : List String
deriving DecidableEq

/-- The extent of the EPSG:4326 projection used by the source. -/
def worldCRS84Extent : Extent := ⟨-180, -90, 180, 90⟩

/-- Embedding of `WMTSService.createTileGrid`, generalised over the
projection extent, tile size and zoom-level count exactly as the
TileGridCalculator interface of the spec takes them (the source instantiates
them with the EPSG:4326 extent, `TILE_SIZE = 256` and `MAX_ZOOM = 21`):
`resolutions[z] = size / (tileSize * 2 ^ z)`, `matrixIds[z] = z.toString()`,
origin `[-180, 90]`. -/
def createTileGrid (projectionExtent : Extent) (tileSize : ℚ) (zoomLevels : ℕ) :
    WMTSTileGridSpec :=
  { origin := (-180, 90)
    resolutions :=
      (List.range zoomLevels).map (fun z => extentSpan projectionExtent / (tileSize * 2 ^ z))
    matrixIds := (List.range zoomLevels).map (fun z => toString z) }

/-! ## Feature highlighting (LayerManager.highlightFeature) -/

/-- The constants of `DEFAULT_STYLES` in map.constants.ts that the highlight
style uses. -/
def SELECTED_FILL_COLOR : String := "#ff3388"

/-- Selected stroke color from `DEFAULT_STYLES`. -/
def SELECTED_STROKE_COLOR : String := "#ff3388"

/-- Highlight fill opacity `0.4` from `DEFAULT_STYLES`. -/
def HIGHLIGHT_FILL_OPACITY : ℚ := 0.4

/-- Default stroke width `2` from `DEFAULT_STYLES`. -/
def STROKE_WIDTH : ℚ := 2

/-- The data of the `Style` object built by
`LayerManager.createHighlightStyle` (fill color/opacity, stroke color/width,
point-circle radius). -/
structure HighlightStyle where
  fillColor : String
  fillOpacity : ℚ
  strokeColor : String
  strokeWidth : ℚ
  pointRadius : ℚ
deriving DecidableEq

/-- Embedding of `LayerManager.createHighlightStyle`. -/
def createHighlightStyle : HighlightStyle :=
  { fillColor := SELECTED_FILL_COLOR
    fillOpacity := HIGHLIGHT_FILL_OPACITY
    strokeColor := SELECTED_STROKE_COLOR
    strokeWidth := STROKE_WIDTH + 1
    pointRadius := 8 }

/-- A feature of the vector source: its properties mapping and its
feature-level style slot. `none` models `setStyle(undefined)` / an unset
feature style, which makes the renderer fall back to the layer's style
function (recomputed per render); `some s` models an explicitly set style. -/
structure MapFeature where
  props : List (String × String)
  style : Option HighlightStyle
deriving DecidableEq

/-- Property lookup, `feature.getProperties()[idColumn]`; a missing key is
JS `undefined`, modelled as `none`. -/
def getProp (f : MapFeature) (key : String) : Option String :=
  (f.props.find? (fun p => p.1 == key)).map (fun p => p.2)

/-- Does `properties[idColumn] === featureId` hold for this feature? -/
def isMatch (idColumn featureId : String) (f : MapFeature) : Bool :=
  getProp f idColumn == some featureId

/-- Is this feature currently carrying the highlight style? -/
def isHighlighted (f : MapFeature) : Bool :=
  f.style == some createHighlightStyle

/-- Embedding of `LayerManager.highlightFeature`: for every feature of the
source, if `properties[idColumn] === featureId` set the highlight style,
otherwise set the style slot to `undefined` (reset to the layer default). -/
def highlightFeature (features : List MapFeature) (featureId idColumn : String) :
    List MapFeature :=
  features.map (fun f =>
    if isMatch idColumn featureId f then
      { f with style := some createHighlightStyle }
    else
      { f with style := none })

/-! ## Style resolution (ImprovedMapComponent styleFunction,
LayerManager.createFeatureStyle) -/

/-- Default fill color `DEFAULT_STYLES.FILL_COLOR`. -/
def FILL_COLOR : String := "#3388ff"

/-- Default stroke color `DEFAULT_STYLES.STROKE_COLOR`. -/
def STROKE_COLOR : String := "#3388ff"

/-- Default fill opacity `DEFAULT_STYLES.FILL_OPACITY`. -/
def FILL_OPACITY : ℚ := 0.2

/-- Default stroke opacity `DEFAULT_STYLES.STROKE_OPACITY`. -/
def STROKE_OPACITY : ℚ := 1

/-- The `StyleConfig` record of map.types.ts. -/
structure StyleConfig where
  fillColor : String
  fillOpacity : ℚ
  strokeColor : String
  strokeWidth : ℚ
  strokeOpacity : ℚ
deriving DecidableEq

/-- The default configuration assembled at the top of
`LayerManager.createFeatureStyle` from `DEFAULT_STYLES` (the theme). -/
def themeStyleConfig : StyleConfig :=
  { fillColor := FILL_COLOR
    fillOpacity := FILL_OPACITY
    strokeColor := STROKE_COLOR
    strokeWidth := STROKE_WIDTH
    strokeOpacity := STROKE_OPACITY }

/-- Embedding of the `styleFunction` wrapper of `ImprovedMapComponent`
(lines 146-159): call the caller-supplied `entityColor`; when it throws
(modelled by `Except.error`) catch the failure and return the default
configuration built from `defaultColor`. When it returns a configuration,
return it as given — the wrapper performs no validation of the returned
values. -/
def componentStyleFunction
    (entityColor : List (String × String) → String → Except String StyleConfig)
    (props : List (String × String)) (defaultColor : String) : StyleConfig :=
  match entityColor props defaultColor with
  | Except.ok cfg => cfg
  | Except.error _ =>
      { fillColor := defaultColor
        fillOpacity := 0.2
        strokeColor := defaultColor
        strokeWidth := 2
        strokeOpacity := 1 }

/-- Embedding of the configuration selection in
`LayerManager.createFeatureStyle` (lines 41-57): the theme defaults unless a
style function was supplied, in which case its result replaces them
wholesale. -/
def resolveStyleConfig
    (styleFunction : Option (List (String × String) → String → StyleConfig))
    (props : List (String × String)) : StyleConfig :=
  match styleFunction with
  | some fn => fn props FILL_COLOR
  | none => themeStyleConfig

/-- An override that returns an out-of-range fill opacity. -/
def invalidOpacityOverride :
    List (String × String) → String → Except String StyleConfig :=
  fun _ defaultColor => Except.ok
    { fillColor := defaultColor
      fillOpacity := 2
      strokeColor := defaultColor
      strokeWidth := 2
      strokeOpacity := 1 }

/-! ## Hex color decoding (LayerManager.hexToRgba) -/

/-- JS `String.prototype.slice(i, j)`: the characters from position `i` to
position `j - 1`. -/
def jsSlice (s : String) (i j : ℕ) : List Char :=
  (s.toList.drop i).take (j - i)

/-- Numeric value of a hexadecimal digit character, `none` otherwise. -/
def hexDigitVal (c : Char) : Option ℕ :=
  if Char.ofNat 48 ≤ c ∧ c ≤ Char.ofNat 57 then some (c.toNat - 48)
  else if Char.ofNat 97 ≤ c ∧ c ≤ Char.ofNat 102 then some (c.toNat - 87)
  else if Char.ofNat 65 ≤ c ∧ c ≤ Char.ofNat 70 then some (c.toNat - 55)
  else none

/-- JS `parseInt(s, 16)` on the two-character byte pairs the source feeds
it: the longest prefix of hexadecimal digits is parsed; when it is empty the
result is NaN, modelled as `none` (leading whitespace, signs and the `0x`
prefix never occur in these inputs and are not modelled). -/
def parseIntHex (cs : List Char) : Option ℕ :=
  if ((cs.takeWhile (fun c => (hexDigitVal c).isSome)).filterMap hexDigitVal).isEmpty
  then none
  else some (((cs.takeWhile (fun c => (hexDigitVal c).isSome)).filterMap hexDigitVal).foldl
    (fun acc d => 16 * acc + d) 0)

/-- The three channel values plus alpha of the produced rgba string; a `none`
channel prints as the JS string `NaN`. -/
structure Rgba where
  r : Option ℕ
  g : Option ℕ
  b : Option ℕ
  a : ℚ
deriving DecidableEq

/-- Embedding of `LayerManager.hexToRgba`: decode the byte pairs at
positions 1-2, 3-4 and 5-6 of the color string and append the opacity as the
alpha channel. -/
def hexToRgba (hex : String) (opacity : ℚ) : Rgba :=
  { r := parseIntHex (jsSlice hex 1 3)
    g := parseIntHex (jsSlice hex 3 5)
    b := parseIntHex (jsSlice hex 5 7)
    a := opacity }

/-- Rendering of one channel of the rgba template string. -/
def channelString : Option ℕ → String
  | some n => toString n
  | none => "NaN"

/-- The template string `rgba(r, g, b, opacity)` returned by `hexToRgba`. -/
def rgbaString (c : Rgba) : String :=
  "rgba(" ++ channelString c.r ++ ", " ++ channelString c.g ++ ", "
    ++ channelString c.b ++ ", " ++ toString c.a ++ ")"

/-! ## WKT polygon encoding (DrawingService.formatPolygonToWKT) -/

/-- Rendering of one coordinate pair, `coord[0] + " " + coord[1]`. -/
def coordPairString (c : ℚ × ℚ) : String :=
  toString c.1 ++ " " ++ toString c.2

/-- Embedding of `DrawingService.formatPolygonToWKT`: join all coordinates
with `", "` and append the first coordinate once more to close the ring —
unconditionally, with no already-closed check. On an empty ring the JS code
faults reading `coordinates[0][0]`; that is modelled by `none`. -/
def formatPolygonToWKT (coordinates : List (ℚ × ℚ)) : Option String :=
  match coordinates with
  | [] => none
  | c0 :: _ =>
      some ("POLYGON ((" ++
        String.intercalate ", " (coordinates.map coordPairString) ++
        ", " ++ coordPairString c0 ++ "))")

/-- WKT polygon text over an explicitly closed coordinate list; used to
state what the encoder emits. -/
def wktOfClosedRing (coordinates : List (ℚ × ℚ)) : String :=
  "POLYGON ((" ++ String.intercalate ", " (coordinates.map coordPairString) ++ "))"

/-! ## Drawing interaction lifecycle (DrawingService) -/

/-- The drawing modes of `DRAWING_MODES` (none, polygon, line, point). -/
inductive DrawingMode
  | noneMode
  | polygon
  | line
  | point
deriving DecidableEq

/-- The mutable interaction fields of `DrawingService`. Interaction objects
are identified by construction order; `nextId` numbers the next one to be
constructed. -/
structure DrawingServiceState where
  nextId : ℕ
  drawInteraction : Option ℕ
  modifyInteraction : Option ℕ
  snapInteraction : Option ℕ
deriving DecidableEq

/-- The host map's interaction collection. -/
structure MapSurface where
  interactions : List ℕ
deriving DecidableEq

/-- `map.removeInteraction`: removes the first occurrence from the
collection. -/
def removeInteraction (m : MapSurface) (i : ℕ) : MapSurface :=
  ⟨m.interactions.erase i⟩

/-- `map.addInteraction`: appends to the collection. -/
def addInteraction (m : MapSurface) (i : ℕ) : MapSurface :=
  ⟨m.interactions ++ [i]⟩

/-- Embedding of `DrawingService.stopDrawing`: for each of the draw, modify
and snap fields, when set, remove that interaction from the map and null the
field. -/
def stopDrawing (st : DrawingServiceState) (m : MapSurface) :
    DrawingServiceState × MapSurface :=
  let m1 := match st.drawInteraction with
    | some i => removeInteraction m i
    | none => m
  let m2 := match st.modifyInteraction with
    | some i => removeInteraction m1 i
    | none => m1
  let m3 := match st.snapInteraction with
    | some i => removeInteraction m2 i
    | none => m2
  (⟨st.nextId, none, none, none⟩, m3)

/-- Embedding of `DrawingService.startDrawing`: first `stopDrawing`; then,
unless the mode is none, construct fresh draw, modify and snap interactions
and add all three to the map (the drawing layer and the drawend callback
wiring are not modelled; they do not affect which interactions are
attached). -/
def startDrawing (st : DrawingServiceState) (m : MapSurface) (mode : DrawingMode) :
    DrawingServiceState × MapSurface :=
  let s1 := (stopDrawing st m).1
  let m1 := (stopDrawing st m).2
  match mode with
  | DrawingMode.noneMode => (s1, m1)
  | _ =>
      (⟨s1.nextId + 3, some s1.nextId, some (s1.nextId + 1), some (s1.nextId + 2)⟩,
        addInteraction (addInteraction (addInteraction m1 s1.nextId) (s1.nextId + 1))
          (s1.nextId + 2))

/-! ## Camera fitting (LayerManager.fitToLayerExtent and the
selected-feature effect of ImprovedMapComponent) -/

/-- A JS number: a finite value (exact rational) or one of the non-finite
values Infinity, -Infinity, NaN. -/
inductive JsNum
  | val (q : ℚ)
  | posInf
  | negInf
  | nan
deriving DecidableEq

/-- JS `isFinite`. -/
def JsNum.isFinite : JsNum → Bool
  | JsNum.val _ => true
  | _ => false

/-- The options object of a `view.fit` call. -/
structure FitOptions where
  duration : ℕ
  padding : List ℕ
  maxZoom : Option ℕ
deriving DecidableEq

/-- The arguments of a `view.animate` call. -/
structure AnimateOptions where
  center : List JsNum
  zoom : ℕ
  duration : ℕ
deriving DecidableEq

/-- The camera calls and diagnostics one invocation performs. -/
structure CameraResult where
  fitCalls : List (List JsNum × FitOptions)
  animateCalls : List AnimateOptions
  diagnostics : List String
deriving DecidableEq

/-- Embedding of `LayerManager.fitToLayerExtent` (lines 180-191): when every
extent coordinate is finite, call `fit` with duration 1000 and padding 20;
otherwise do nothing — the code records no diagnostic in that case. -/
def fitToLayerExtent (extent : List JsNum) : CameraResult :=
  if extent.all JsNum.isFinite then
    ⟨[(extent, ⟨1000, [20, 20, 20, 20], none⟩)], [], []⟩
  else
    ⟨[], [], []⟩

/-- Embedding of the geometry-type switch in the selected-feature effect of
`ImprovedMapComponent` (lines 225-258): Point animates to the first two
extent coordinates with zoom 17; LineString and MultiLineString fit with
maxZoom 14; Polygon and MultiPolygon fit with maxZoom 16; any other type
fits without a maxZoom. Every fit uses duration `ANIMATION_DURATION = 1000`
and padding 50; no finiteness check is performed on this path. -/
def flyToSelectedFeature (geometryType : String) (extent : List JsNum) : CameraResult :=
  if geometryType = "Point" then
    ⟨[], [⟨extent.take 2, 17, 1000⟩], []⟩
  else if geometryType = "LineString" ∨ geometryType = "MultiLineString" then
    ⟨[(extent, ⟨1000, [50, 50, 50, 50], some 14⟩)], [], []⟩
  else if geometryType = "Polygon" ∨ geometryType = "MultiPolygon" then
    ⟨[(extent, ⟨1000, [50, 50, 50, 50], some 16⟩)], [], []⟩
  else
    ⟨[(extent, ⟨1000, [50, 50, 50, 50], none⟩)], [], []⟩

end OLMap

namespace OLMap

/-- Claim C1: for every valid input (positive span, positive tile size,
at least one zoom level) the tile grid has `resolution[z] = span / (tileSize * 2^z)`
and `matrixId[z] = toString z` at every level `z`; resolutions are strictly
decreasing; and for the width-360 extent with tile size 256 the first three
resolutions are `[1.40625, 0.703125, 0.3515625]`. -/
theorem C1_tile_grid (e : Extent) (tileSize : ℚ) (zoomLevels : ℕ)
    (hspan : 0 < extentSpan e) (hts : 0 < tileSize) (hz : 1 ≤ zoomLevels) :
    (∀ z, z < zoomLevels →
      (createTileGrid e tileSize zoomLevels).resolutions[z]?
          = some (extentSpan e / (tileSize * 2 ^ z))
        ∧ (createTileGrid e tileSize zoomLevels).matrixIds[z]? = some (toString z))
    ∧ (∀ z a b, (createTileGrid e tileSize zoomLevels).resolutions[z]? = some a →
        (createTileGrid e tileSize zoomLevels).resolutions[z + 1]? = some b →
        b < a)
    ∧ (createTileGrid worldCRS84Extent 256 3).resolutions
        = [1.40625, 0.703125, 0.3515625] := by
  refine ⟨?_, ?_, ?_⟩
  · intro z hzlt
    constructor
    · show ((List.range zoomLevels).map
        (fun z => extentSpan e / (tileSize * 2 ^ z)))[z]? = _
      rw [List.getElem?_map, List.getElem?_range hzlt]
      rfl
    · show ((List.range zoomLevels).map (fun z => toString z))[z]? = _
      rw [List.getElem?_map, List.getElem?_range hzlt]
      rfl
  · intro z a b ha hb
    have hlen : ∀ m, m < zoomLevels →
        (createTileGrid e tileSize zoomLevels).resolutions[m]?
          = some (extentSpan e / (tileSize * 2 ^ m)) := by
      intro m hm
      show ((List.range zoomLevels).map
        (fun z => extentSpan e / (tileSize * 2 ^ z)))[m]? = _
      rw [List.getElem?_map, List.getElem?_range hm]
      rfl
    have hz1 : z + 1 < zoomLevels := by
      by_contra hcon
      have : (createTileGrid e tileSize zoomLevels).resolutions[z + 1]? = none := by
        apply List.getElem?_eq_none
        show ((List.range zoomLevels).map
          (fun z => extentSpan e / (tileSize * 2 ^ z))).length ≤ z + 1
        simpa using Nat.le_of_not_lt hcon
      rw [this] at hb
      exact Option.noConfusion hb
    have hzlt : z < zoomLevels := Nat.lt_of_succ_lt hz1
    rw [hlen z hzlt] at ha
    rw [hlen (z + 1) hz1] at hb
    have ha2 := Option.some.inj ha
    have hb2 := Option.some.inj hb
    subst ha2
    subst hb2
    have hpos : (0:ℚ) < tileSize * 2 ^ z := by positivity
    have hlt : tileSize * 2 ^ z < tileSize * 2 ^ (z + 1) := by
      have h2 : (2:ℚ) ^ z < 2 ^ (z + 1) :=
        pow_lt_pow_right₀ (by norm_num) (Nat.lt_succ_self z)
      exact (mul_lt_mul_left hts).2 h2
    exact div_lt_div_of_pos_left hspan hpos hlt
  · show (List.range 3).map
      (fun z => extentSpan worldCRS84Extent / ((256:ℚ) * 2 ^ z)) = _
    norm_num [List.range_succ, extentSpan, worldCRS84Extent]

/-- Witness for C1 at the concrete EPSG:4326 input of the source. -/
theorem C1_tile_grid_witness :
    (0:ℚ) < extentSpan worldCRS84Extent ∧
    (createTileGrid worldCRS84Extent 256 3).resolutions[1]?
      = some (extentSpan worldCRS84Extent / (256 * 2 ^ 1)) := by
  constructor
  · norm_num [extentSpan, worldCRS84Extent]
  · exact ((C1_tile_grid worldCRS84Extent 256 3
      (by norm_num [extentSpan, worldCRS84Extent]) (by norm_num) (by norm_num)).1
      1 (by norm_num)).1

/-- Claim C2: when exactly one feature of the collection has
`properties[idColumn]` equal to the target id, `highlightFeature` leaves
exactly one feature carrying the highlight style; positionally, the matching
feature gets the recomputed highlight style and every other one is reset to
the layer default (style slot cleared, not left stale). -/
theorem C2_highlight_single_match (fs : List MapFeature) (featureId idColumn : String)
    (h : fs.countP (isMatch idColumn featureId) = 1) :
    (highlightFeature fs featureId idColumn).countP isHighlighted = 1
    ∧ ∀ (z : ℕ) (f : MapFeature), fs[z]? = some f →
        ∃ g, (highlightFeature fs featureId idColumn)[z]? = some g
          ∧ g.props = f.props
          ∧ (isMatch idColumn featureId f = true → g.style = some createHighlightStyle)
          ∧ (isMatch idColumn featureId f = false → g.style = none) := by
  constructor
  · rw [highlightFeature, List.countP_map]
    have heq : (isHighlighted ∘ fun f =>
        if isMatch idColumn featureId f then
          { f with style := some createHighlightStyle }
        else { f with style := none }) = isMatch idColumn featureId := by
      funext f
      by_cases hm : isMatch idColumn featureId f
      · simp [Function.comp, hm, isHighlighted]
      · simp [Function.comp, hm, isHighlighted]
    rw [heq]
    exact h
  · intro z f hf
    refine ⟨if isMatch idColumn featureId f then
        { f with style := some createHighlightStyle }
      else { f with style := none }, ?_, ?_, ?_, ?_⟩
    · rw [highlightFeature, List.getElem?_map, hf]
      rfl
    · by_cases hm : isMatch idColumn featureId f <;> simp [hm]
    · intro hm
      simp [hm]
    · intro hm
      simp [hm]

/-- Witness for C2: ids `001` and `002`, highlight `002`. -/
theorem C2_witness :
    (highlightFeature
      [⟨[("id", "001")], none⟩, ⟨[("id", "002")], none⟩] "002" "id").countP isHighlighted
      = 1 :=
  (C2_highlight_single_match
    [⟨[("id", "001")], none⟩, ⟨[("id", "002")], none⟩] "002" "id" (by decide)).1

/-- A collection in which feature `002` already carries the highlight style
from an earlier `highlightFeature` call. -/
def priorHighlightedFeatures : List MapFeature :=
  [ ⟨[("id", "001")], none⟩,
    ⟨[("id", "002")], some createHighlightStyle⟩ ]

/-- Counterexample to Claim C3: the target `999` matches no feature, yet the
call is not a no-op on the styles — the previously highlighted feature `002`
has its style slot cleared rather than retaining its prior highlight. -/
theorem C3_counterexample :
    (∀ f ∈ priorHighlightedFeatures, isMatch "id" "999" f = false)
    ∧ (highlightFeature priorHighlightedFeatures "999" "id").map MapFeature.style
        = [none, none]
    ∧ highlightFeature priorHighlightedFeatures "999" "id" ≠ priorHighlightedFeatures := by
  refine ⟨by decide, rfl, ?_⟩
  intro hcon
  have h2 := congrArg (List.map MapFeature.style) hcon
  rw [show (highlightFeature priorHighlightedFeatures "999" "id").map MapFeature.style
      = [none, none] from rfl,
    show priorHighlightedFeatures.map MapFeature.style
      = [none, some createHighlightStyle] from rfl] at h2
  simp at h2

/-- Amended Claim C3: when no feature matches the target id, the call resets
every feature of the collection to its non-selected layer-default style — a
previously highlighted feature loses its highlight; no diagnostic is emitted
by the highlighter itself. -/
theorem C3_amended_not_found_resets_all (fs : List MapFeature) (featureId idColumn : String)
    (h : ∀ f ∈ fs, isMatch idColumn featureId f = false) :
    ∀ g ∈ highlightFeature fs featureId idColumn, g.style = none := by
  intro g hg
  rcases List.mem_map.1 (by simpa [highlightFeature] using hg) with ⟨a, ha, rfl⟩
  rw [h a ha]
  simp

/-- Witness for the amended C3 at the two-feature collection with a
previously highlighted `002` and absent target `999`. -/
theorem C3_amended_witness :
    ({ props := [("id", "001")], style := none } : MapFeature).style = none :=
  C3_amended_not_found_resets_all priorHighlightedFeatures "999" "id" (by decide)
    ⟨[("id", "001")], none⟩ (by decide)

/-- Claim C10: `highlightFeature` highlights every matching feature — the
number of highlighted features equals the number of features whose
`properties[idColumn]` equals the target, so the at-most-one-highlight
invariant only holds when ids are unique in the collection. -/
theorem C10_all_matches_highlighted (fs : List MapFeature) (featureId idColumn : String) :
    (highlightFeature fs featureId idColumn).countP isHighlighted
      = fs.countP (isMatch idColumn featureId)
    ∧ ∀ (z : ℕ) (f : MapFeature), fs[z]? = some f → isMatch idColumn featureId f = true →
        ((highlightFeature fs featureId idColumn)[z]?).map MapFeature.style
          = some (some createHighlightStyle) := by
  constructor
  · rw [highlightFeature, List.countP_map]
    have heq : (isHighlighted ∘ fun f =>
        if isMatch idColumn featureId f then
          { f with style := some createHighlightStyle }
        else { f with style := none }) = isMatch idColumn featureId := by
      funext f
      by_cases hm : isMatch idColumn featureId f
      · simp [Function.comp, hm, isHighlighted]
      · simp [Function.comp, hm, isHighlighted]
    rw [heq]
  · intro z f hf hm
    rw [highlightFeature, List.getElem?_map, hf]
    simp [hm]

/-- Witness for C10: two features sharing id `002` are both highlighted. -/
theorem C10_witness :
    (highlightFeature
        [⟨[("id", "002")], none⟩, ⟨[("id", "002")], none⟩] "002" "id").countP isHighlighted = 2
    ∧ ((highlightFeature
        [⟨[("id", "002")], none⟩, ⟨[("id", "002")], none⟩] "002" "id")[0]?).map MapFeature.style
        = some (some createHighlightStyle) :=
  ⟨(C10_all_matches_highlighted
      [⟨[("id", "002")], none⟩, ⟨[("id", "002")], none⟩] "002" "id").1.trans (by decide),
   (C10_all_matches_highlighted
      [⟨[("id", "002")], none⟩, ⟨[("id", "002")], none⟩] "002" "id").2 0
      ⟨[("id", "002")], none⟩ rfl (by decide)⟩

/-- Counterexample to Claim C4: an override that returns a fill opacity of 2
(outside `[0, 1]`) is not replaced by the default theme — the invalid
configuration is resolved as returned. -/
theorem C4_counterexample :
    (resolveStyleConfig (some (componentStyleFunction invalidOpacityOverride)) []).fillOpacity
      = 2
    ∧ ¬ ((resolveStyleConfig
        (some (componentStyleFunction invalidOpacityOverride)) []).fillOpacity ≤ 1)
    ∧ resolveStyleConfig (some (componentStyleFunction invalidOpacityOverride)) []
        ≠ themeStyleConfig := by
  refine ⟨rfl, ?_, ?_⟩
  · show ¬ ((2:ℚ) ≤ 1)
    norm_num
  · intro hcon
    have h2 := congrArg StyleConfig.fillOpacity hcon
    rw [show (resolveStyleConfig
        (some (componentStyleFunction invalidOpacityOverride)) []).fillOpacity
        = (2:ℚ) from rfl] at h2
    rw [show themeStyleConfig.fillOpacity = FILL_OPACITY from rfl] at h2
    rw [FILL_OPACITY] at h2
    norm_num at h2

/-- Amended Claim C4: when the override throws, resolution catches the
failure and produces the default theme (it is never propagated, resolution
being total); when the override returns a configuration — valid or invalid —
that configuration is used as returned, without any validation. -/
theorem C4_amended_override_recovery
    (entityColor : List (String × String) → String → Except String StyleConfig)
    (props : List (String × String)) :
    (∀ msg, entityColor props FILL_COLOR = Except.error msg →
      resolveStyleConfig (some (componentStyleFunction entityColor)) props
        = themeStyleConfig)
    ∧ (∀ cfg, entityColor props FILL_COLOR = Except.ok cfg →
      resolveStyleConfig (some (componentStyleFunction entityColor)) props = cfg) := by
  constructor
  · intro msg hmsg
    rw [resolveStyleConfig, componentStyleFunction, hmsg]
    rfl
  · intro cfg hcfg
    rw [resolveStyleConfig, componentStyleFunction, hcfg]

/-- Witness for the amended C4: a throwing override resolves to the theme. -/
theorem C4_amended_witness :
    resolveStyleConfig
      (some (componentStyleFunction (fun _ _ => Except.error "style failure"))) []
      = themeStyleConfig :=
  (C4_amended_override_recovery (fun _ _ => Except.error "style failure") []).1
    "style failure" rfl

/-- Helper: `parseIntHex` decodes a pair of hexadecimal digits as one byte. -/
theorem parseIntHex_pair (c d : Char) (vc vd : ℕ)
    (hc : hexDigitVal c = some vc) (hd : hexDigitVal d = some vd) :
    parseIntHex [c, d] = some (16 * vc + vd) := by
  unfold parseIntHex
  simp only [List.takeWhile_cons, List.takeWhile_nil, hc, hd, Option.isSome_some,
    if_true, List.filterMap_cons, List.filterMap_nil, List.isEmpty_cons,
    List.foldl_cons, List.foldl_nil]
  norm_num

/-- Counterexample to Claim C9: an invalid color string does not make the
conversion fail — it silently yields a malformed rgba value whose channels
are NaN. -/
theorem C9_counterexample :
    hexToRgba "#zzzzzz" 1 = ⟨none, none, none, 1⟩
    ∧ rgbaString (hexToRgba "#zzzzzz" 1) = "rgba(NaN, NaN, NaN, 1)" := by
  exact ⟨rfl, rfl⟩

/-- Amended Claim C9: for a `#`-prefixed color of six hexadecimal digits the
conversion decodes each byte pair exactly and appends the opacity as the
alpha channel; for a color whose first slice starts with a non-hex character
the conversion does not fail — the red channel is NaN in the produced
value. -/
theorem C9_amended_hex_decode (c1 c2 c3 c4 c5 c6 : Char) (v1 v2 v3 v4 v5 v6 : ℕ) (op : ℚ)
    (h1 : hexDigitVal c1 = some v1) (h2 : hexDigitVal c2 = some v2)
    (h3 : hexDigitVal c3 = some v3) (h4 : hexDigitVal c4 = some v4)
    (h5 : hexDigitVal c5 = some v5) (h6 : hexDigitVal c6 = some v6) :
    hexToRgba (String.mk [Char.ofNat 35, c1, c2, c3, c4, c5, c6]) op
      = ⟨some (16 * v1 + v2), some (16 * v3 + v4), some (16 * v5 + v6), op⟩
    ∧ ∀ (bad : Char) (rest : List Char) (op2 : ℚ), hexDigitVal bad = none →
        (hexToRgba (String.mk (Char.ofNat 35 :: bad :: rest)) op2).r = none := by
  constructor
  · show Rgba.mk (parseIntHex [c1, c2]) (parseIntHex [c3, c4]) (parseIntHex [c5, c6]) op = _
    rw [parseIntHex_pair c1 c2 v1 v2 h1 h2, parseIntHex_pair c3 c4 v3 v4 h3 h4,
      parseIntHex_pair c5 c6 v5 v6 h5 h6]
  · intro bad rest op2 hbad
    show parseIntHex (bad :: rest.take 1) = none
    unfold parseIntHex
    simp [List.takeWhile_cons, hbad]

/-- Helper: associativity of string concatenation. -/
theorem strAppend_assoc (a b c : String) : (a ++ b) ++ c = a ++ (b ++ c) := by
  cases a with
  | mk la =>
    cases b with
    | mk lb =>
      cases c with
      | mk lc =>
        show String.mk ((la ++ lb) ++ lc) = String.mk (la ++ (lb ++ lc))
        rw [List.append_assoc]

/-- Helper: the accumulator recursion of `String.intercalate` over a list
extended by one element. -/
theorem intercalate_go_append (s x : String) (as : List String) :
    ∀ acc, String.intercalate.go acc s (as ++ [x])
      = String.intercalate.go acc s as ++ s ++ x := by
  induction as with
  | nil =>
    intro acc
    rfl
  | cons a t ih =>
    intro acc
    show String.intercalate.go (acc ++ s ++ a) s (t ++ [x]) = _
    rw [ih]
    rfl

/-- Helper: `String.intercalate` over a nonempty list extended by one
element appends one separator and the element. -/
theorem intercalate_append_singleton (s x a : String) (t : List String) :
    String.intercalate s ((a :: t) ++ [x])
      = String.intercalate s (a :: t) ++ s ++ x := by
  show String.intercalate.go a s (t ++ [x]) = String.intercalate.go a s t ++ s ++ x
  exact intercalate_go_append s x t a

/-- Counterexample to Claim C5: on a ring that is already closed (first
point equal to last point) the encoder appends the first vertex once more,
double-closing the ring instead of leaving it as is. -/
theorem C5_counterexample :
    formatPolygonToWKT [(0, 0), (1, 0), (1, 1), (0, 1), (0, 0)]
      = some "POLYGON ((0 0, 1 0, 1 1, 0 1, 0 0, 0 0))"
    ∧ "POLYGON ((0 0, 1 0, 1 1, 0 1, 0 0, 0 0))"
      ≠ "POLYGON ((0 0, 1 0, 1 1, 0 1, 0 0))" := by
  exact ⟨rfl, by decide⟩

/-- Amended Claim C5: for every nonempty ring the encoder emits
`POLYGON ((...))` whose vertex sequence is the input ring followed by one
unconditional copy of the first vertex (for an open ring this closes it; an
already-closed ring is double-closed); in particular the open example ring
encodes to `POLYGON ((0 0, 1 0, 1 1, 0 1, 0 0))`. -/
theorem C5_amended_always_closes (c0 : ℚ × ℚ) (rest : List (ℚ × ℚ)) :
    formatPolygonToWKT (c0 :: rest) = some (wktOfClosedRing ((c0 :: rest) ++ [c0]))
    ∧ formatPolygonToWKT [(0, 0), (1, 0), (1, 1), (0, 1)]
        = some "POLYGON ((0 0, 1 0, 1 1, 0 1, 0 0))" := by
  constructor
  · show some ("POLYGON ((" ++
        String.intercalate ", " ((c0 :: rest).map coordPairString) ++
        ", " ++ coordPairString c0 ++ "))")
      = some (wktOfClosedRing ((c0 :: rest) ++ [c0]))
    rw [wktOfClosedRing, List.map_append]
    rw [show ([c0].map coordPairString) = [coordPairString c0] from rfl]
    rw [show ((c0 :: rest).map coordPairString)
        = coordPairString c0 :: rest.map coordPairString from rfl]
    rw [intercalate_append_singleton]
    simp [strAppend_assoc]
  · rfl

end OLMap

namespace OLMap

/-- Witness for the amended C9 at the default color `#3388ff` with opacity
one: channels decode to 51, 136, 255. -/
theorem C9_amended_witness :
    hexToRgba (String.mk [Char.ofNat 35, Char.ofNat 51, Char.ofNat 51, Char.ofNat 56,
        Char.ofNat 56, Char.ofNat 102, Char.ofNat 102]) 1
      = ⟨some 51, some 136, some 255, 1⟩ := by
  have h := (C9_amended_hex_decode (Char.ofNat 51) (Char.ofNat 51) (Char.ofNat 56)
    (Char.ofNat 56) (Char.ofNat 102) (Char.ofNat 102) 3 3 8 8 15 15 1
    (by decide) (by decide) (by decide) (by decide) (by decide) (by decide)).1
  norm_num at h
  exact h

/-- Claim C6: starting polygon drawing and then line drawing on a fresh
service detaches the polygon generation of handlers before attaching the
line generation: afterwards the map carries exactly one handler triple (the
line one), the service fields reference exactly that triple, and none of the
polygon-generation interactions remains attached. -/
theorem C6_start_single_triple (n : ℕ) (m : MapSurface)
    (hfresh : ∀ i ∈ m.interactions, i < n) :
    (startDrawing (startDrawing ⟨n, none, none, none⟩ m DrawingMode.polygon).1
        (startDrawing ⟨n, none, none, none⟩ m DrawingMode.polygon).2
        DrawingMode.line).2.interactions
      = m.interactions ++ [n + 3, n + 4, n + 5]
    ∧ (startDrawing (startDrawing ⟨n, none, none, none⟩ m DrawingMode.polygon).1
        (startDrawing ⟨n, none, none, none⟩ m DrawingMode.polygon).2
        DrawingMode.line).1
      = ⟨n + 6, some (n + 3), some (n + 4), some (n + 5)⟩
    ∧ n ∉ (startDrawing (startDrawing ⟨n, none, none, none⟩ m DrawingMode.polygon).1
        (startDrawing ⟨n, none, none, none⟩ m DrawingMode.polygon).2
        DrawingMode.line).2.interactions
    ∧ n + 1 ∉ (startDrawing (startDrawing ⟨n, none, none, none⟩ m DrawingMode.polygon).1
        (startDrawing ⟨n, none, none, none⟩ m DrawingMode.polygon).2
        DrawingMode.line).2.interactions
    ∧ n + 2 ∉ (startDrawing (startDrawing ⟨n, none, none, none⟩ m DrawingMode.polygon).1
        (startDrawing ⟨n, none, none, none⟩ m DrawingMode.polygon).2
        DrawingMode.line).2.interactions := by
  have h0 : n ∉ m.interactions := fun hmem => absurd (hfresh n hmem) (lt_irrefl n)
  have h1 : n + 1 ∉ m.interactions := by
    intro hmem
    have := hfresh _ hmem
    omega
  have h2 : n + 2 ∉ m.interactions := by
    intro hmem
    have := hfresh _ hmem
    omega
  have hA : startDrawing ⟨n, none, none, none⟩ m DrawingMode.polygon
      = (⟨n + 3, some n, some (n + 1), some (n + 2)⟩,
         ⟨((m.interactions ++ [n]) ++ [n + 1]) ++ [n + 2]⟩) := rfl
  have herase :
      (((((m.interactions ++ [n]) ++ [n + 1]) ++ [n + 2]).erase n).erase
        (n + 1)).erase (n + 2) = m.interactions := by
    rw [show ((m.interactions ++ [n]) ++ [n + 1]) ++ [n + 2]
        = m.interactions ++ [n, n + 1, n + 2] by simp]
    rw [List.erase_append_right _ h0, List.erase_cons_head]
    rw [List.erase_append_right _ h1, List.erase_cons_head]
    rw [List.erase_append_right _ h2, List.erase_cons_head]
    simp
  have hB : startDrawing ⟨n + 3, some n, some (n + 1), some (n + 2)⟩
      ⟨((m.interactions ++ [n]) ++ [n + 1]) ++ [n + 2]⟩ DrawingMode.line
      = (⟨n + 6, some (n + 3), some (n + 4), some (n + 5)⟩,
         ⟨m.interactions ++ [n + 3, n + 4, n + 5]⟩) := by
    show ((⟨n + 6, some (n + 3), some (n + 4), some (n + 5)⟩ : DrawingServiceState),
        (⟨(((((((m.interactions ++ [n]) ++ [n + 1]) ++ [n + 2]).erase n).erase
          (n + 1)).erase (n + 2) ++ [n + 3]) ++ [n + 4]) ++ [n + 5]⟩ : MapSurface))
      = ((⟨n + 6, some (n + 3), some (n + 4), some (n + 5)⟩ : DrawingServiceState),
         (⟨m.interactions ++ [n + 3, n + 4, n + 5]⟩ : MapSurface))
    rw [herase]
    simp
  rw [hA, hB]
  refine ⟨rfl, rfl, ?_, ?_, ?_⟩
  · show n ∉ m.interactions ++ [n + 3, n + 4, n + 5]
    simp only [List.mem_append, not_or]
    exact ⟨h0, by simp⟩
  · show n + 1 ∉ m.interactions ++ [n + 3, n + 4, n + 5]
    simp only [List.mem_append, not_or]
    exact ⟨h1, by simp⟩
  · show n + 2 ∉ m.interactions ++ [n + 3, n + 4, n + 5]
    simp only [List.mem_append, not_or]
    exact ⟨h2, by simp⟩

/-- Witness for C6 with a fresh service and an empty map. -/
theorem C6_witness :
    (startDrawing (startDrawing ⟨0, none, none, none⟩ ⟨[]⟩ DrawingMode.polygon).1
        (startDrawing ⟨0, none, none, none⟩ ⟨[]⟩ DrawingMode.polygon).2
        DrawingMode.line).2.interactions = [3, 4, 5] := by
  have h := (C6_start_single_triple 0 ⟨[]⟩ (by simp)).1
  simpa using h

/-- Counterexample to Claim C7: the selected-feature fly-to path of
`ImprovedMapComponent` issues a `fit` call even on the all-infinite extent
of an empty geometry — and `fitToLayerExtent`, which does reject such an
extent, records no ConfigurationError diagnostic while doing so. -/
theorem C7_counterexample :
    (flyToSelectedFeature "Polygon"
      [JsNum.posInf, JsNum.posInf, JsNum.negInf, JsNum.negInf]).fitCalls ≠ []
    ∧ (fitToLayerExtent
        [JsNum.posInf, JsNum.posInf, JsNum.negInf, JsNum.negInf]).fitCalls = []
    ∧ (fitToLayerExtent
        [JsNum.posInf, JsNum.posInf, JsNum.negInf, JsNum.negInf]).diagnostics = [] := by
  refine ⟨?_, rfl, rfl⟩
  intro hcon
  exact List.noConfusion hcon

/-- Amended Claim C7: `fitToLayerExtent` rejects an extent containing a
non-finite coordinate — it performs no fit and leaves the camera untouched —
but it records no diagnostic; the selected-feature fly-to path performs no
finiteness check at all. -/
theorem C7_amended_fit_rejects_nonfinite (extent : List JsNum)
    (h : ∃ c ∈ extent, c.isFinite = false) :
    fitToLayerExtent extent = ⟨[], [], []⟩ := by
  rcases h with ⟨c, hc, hcf⟩
  rw [fitToLayerExtent, if_neg]
  intro hall
  rw [List.all_eq_true] at hall
  rw [hall c hc] at hcf
  exact Bool.noConfusion hcf

/-- Witness for the amended C7 at a concrete infinite extent. -/
theorem C7_amended_witness :
    fitToLayerExtent [JsNum.posInf, JsNum.posInf, JsNum.negInf, JsNum.negInf]
      = ⟨[], [], []⟩ :=
  C7_amended_fit_rejects_nonfinite
    [JsNum.posInf, JsNum.posInf, JsNum.negInf, JsNum.negInf]
    ⟨JsNum.posInf, by simp, rfl⟩

/-- Claim C8: the selected-feature view-fit policy by geometry class: Point
animates the center to the point (the first two extent coordinates, width
and height ignored) with fixed zoom 17 and no fit; LineString and
MultiLineString fit the extent with padding and maxZoom 14; Polygon and
MultiPolygon fit with padding and maxZoom 16; every other geometry class
fits with padding and no maxZoom ceiling. -/
theorem C8_view_fit_policy (extent : List JsNum) (geometryType : String) :
    ((flyToSelectedFeature "Point" extent).animateCalls = [⟨extent.take 2, 17, 1000⟩]
      ∧ (flyToSelectedFeature "Point" extent).fitCalls = [])
    ∧ (∀ x y rest, (flyToSelectedFeature "Point" (x :: y :: rest)).animateCalls
        = [⟨[x, y], 17, 1000⟩])
    ∧ flyToSelectedFeature "LineString" extent
        = ⟨[(extent, ⟨1000, [50, 50, 50, 50], some 14⟩)], [], []⟩
    ∧ flyToSelectedFeature "MultiLineString" extent
        = ⟨[(extent, ⟨1000, [50, 50, 50, 50], some 14⟩)], [], []⟩
    ∧ flyToSelectedFeature "Polygon" extent
        = ⟨[(extent, ⟨1000, [50, 50, 50, 50], some 16⟩)], [], []⟩
    ∧ flyToSelectedFeature "MultiPolygon" extent
        = ⟨[(extent, ⟨1000, [50, 50, 50, 50], some 16⟩)], [], []⟩
    ∧ (geometryType ∉ (["Point", "LineString", "MultiLineString",
          "Polygon", "MultiPolygon"] : List String) →
        flyToSelectedFeature geometryType extent
          = ⟨[(extent, ⟨1000, [50, 50, 50, 50], none⟩)], [], []⟩) := by
  refine ⟨⟨rfl, rfl⟩, ?_, rfl, rfl, rfl, rfl, ?_⟩
  · intro x y rest
    rfl
  · intro hmem
    simp only [List.mem_cons, List.not_mem_nil, or_false, not_or] at hmem
    obtain ⟨g1, g2, g3, g4, g5⟩ := hmem
    rw [flyToSelectedFeature, if_neg g1, if_neg (not_or.2 ⟨g2, g3⟩),
      if_neg (not_or.2 ⟨g4, g5⟩)]

/-- Witness for C8 at a concrete geometry class outside the switch and a
concrete extent. -/
theorem C8_witness :
    flyToSelectedFeature "GeometryCollection"
      [JsNum.val 0, JsNum.val 0, JsNum.val 1, JsNum.val 1]
      = ⟨[([JsNum.val 0, JsNum.val 0, JsNum.val 1, JsNum.val 1],
          ⟨1000, [50, 50, 50, 50], none⟩)], [], []⟩ :=
  (C8_view_fit_policy [JsNum.val 0, JsNum.val 0, JsNum.val 1, JsNum.val 1]
    "GeometryCollection").2.2.2.2.2.2 (by decide)

end OLMap
